import Mathlib

set_option maxHeartbeats 1000000

/-!
Shallow embedding of `src/backend/app.py` (weather-app backend).

The location resolver is `get_coordinates_from_city` (app.py lines 101-136):
it issues one geocoding request with `limit = 1`, returns the first record's
data on success, and returns the triple `(None, None, None)` both when the
result list is empty and when any exception is raised.  The HTTP handlers
(`get_weather`, `get_forecast`, `get_hourly`, `get_minute_forecast`,
`get_alerts`) validate their query parameters before contacting any upstream
service.  Upstream collaborators are modelled as oracle functions; an
`Option.none` / `Except.error` outcome models a raised exception
(network error, non-2xx status via `raise_for_status`, malformed body).
-/

/-- A Python value as it flows through the handlers: `None`, a string
(query parameters), or a number (latitude/longitude from upstream JSON;
floats are represented by integers, no arithmetic is performed on them). -/
inductive PyVal where
  | none
  | str (s : String)
  | int (n : Int)
deriving DecidableEq, Repr

/-- Python truthiness for the values we model: `None`, `''` and `0` are falsy. -/
def PyVal.truthy : PyVal → Bool
  | .none => false
  | .str s => !(s == "")
  | .int n => !(n == 0)

/-- `request.args.get(...)` yields `None` or a string. -/
def pyStr : Option String → PyVal
  | Option.none => PyVal.none
  | some s => PyVal.str s

/-- `location.get('lat')` / `location.get('lon')`: `None` when the key is absent. -/
def pyOf : Option Int → PyVal
  | Option.none => PyVal.none
  | some n => PyVal.int n

/-- One JSON object of the geocoding response body; every key may be absent.
The code reads `name`, `state`, `country`, `lat`, `lon`; upstream records may
also carry a timezone, which the code never reads. -/
structure GeoRecord where
  name : Option String
  state : Option String
  country : Option String
  lat : Option Int
  lon : Option Int
  timezone : Option String
deriving DecidableEq, Repr

/-- The query parameters the resolver builds for its geocoding request:
`params = {'q': city_name, 'limit': 1, 'appid': OPENWEATHER_API_KEY}`. -/
structure GeoParams where
  q : String
  limit : Nat
  appid : String
deriving DecidableEq, Repr

def geocoding_params (apiKey city_name : String) : GeoParams :=
  { q := city_name, limit := 1, appid := apiKey }

/-- The geocoding collaborator: request parameters to parsed JSON body;
`Option.none` models a raised exception (network error, non-2xx status,
malformed body). -/
abbrev GeoApi := GeoParams → Option (List GeoRecord)

/-- The `city_info` dict built from the first geocoding record:
`{'name': location.get('name', ''), 'state': location.get('state', ''),
'country': location.get('country', '')}` — represented literally as a
key/value list, so that which keys exist in the output is observable. -/
def city_info (location : GeoRecord) : List (String × String) :=
  [("name", location.name.getD ""),
   ("state", location.state.getD ""),
   ("country", location.country.getD "")]

/-- `get_coordinates_from_city` (app.py lines 101-136): one geocoding request;
`(None, None, None)` on any exception and on an empty (falsy) result list;
otherwise `(data[0].lat, data[0].lon, city_info)`. -/
def get_coordinates_from_city (geo : GeoApi) (apiKey city_name : String) :
    PyVal × PyVal × Option (List (String × String)) :=
  match geo (geocoding_params apiKey city_name) with
  | Option.none => (PyVal.none, PyVal.none, Option.none)
  | some data =>
    match data with
    | [] => (PyVal.none, PyVal.none, Option.none)
    | location :: _ =>
      (pyOf location.lat, pyOf location.lon, some (city_info location))

/-- How the handlers classify a raised upstream exception:
a `RequestException` whose message mentions 401/subscription, any other
`RequestException`, a `KeyError` while reading the body, or anything else. -/
inductive UpstreamFailure where
  | subscription
  | transport
  | badFormat
  | other
deriving DecidableEq, Repr

/-- The One Call collaborator, as invoked with the resolved `lat`/`lon`
(the response bodies are only relabelled by the handlers, so the outcome of a
call is modelled as success or a classified exception). -/
abbrev OneCallApi := PyVal → PyVal → Except UpstreamFailure Unit

/-- The current-weather collaborator, invoked with the built parameter dict. -/
abbrev WeatherApi := List (String × String) → Except UpstreamFailure Unit

/-- The observable outcome of one handler invocation: HTTP status code,
how many geocoding requests were issued, how many weather/one-call
requests were issued. -/
structure HandlerResult where
  status : Nat
  geoCalls : Nat
  apiCalls : Nat
deriving DecidableEq, Repr

/-- The validation guard shared by all location-taking endpoints:
`if not city and (not lat or not lon)`. -/
def missing_location (city lat lon : Option String) : Bool :=
  !(pyStr city).truthy && (!(pyStr lat).truthy || !(pyStr lon).truthy)

/-- The parameter dict `get_weather` builds: coordinates when both are
provided (truthy), otherwise `q = city`. -/
def weather_params (apiKey : String) (city lat lon : Option String) :
    List (String × String) :=
  if (pyStr lat).truthy && (pyStr lon).truthy then
    [("appid", apiKey), ("units", "metric"), ("lat", lat.getD ""), ("lon", lon.getD "")]
  else
    [("appid", apiKey), ("units", "metric"), ("q", city.getD "")]

/-- `get_weather` (app.py lines 204-269): 400 on missing location parameters,
otherwise one request to the current-weather collaborator; every caught
exception is reported as 500. -/
def get_weather (wapi : WeatherApi) (apiKey : String)
    (city lat lon : Option String) : HandlerResult :=
  if missing_location city lat lon then ⟨400, 0, 0⟩
  else
    match wapi (weather_params apiKey city lat lon) with
    | Except.ok _ => ⟨200, 0, 1⟩
    | Except.error _ => ⟨500, 0, 1⟩

/-- Status mapping of the four One Call endpoints' `except` clauses:
subscription-flavoured `RequestException` → 401, everything else → 500. -/
def one_call_status : Except UpstreamFailure Unit → Nat
  | Except.ok _ => 200
  | Except.error UpstreamFailure.subscription => 401
  | Except.error _ => 500

/-- `get_forecast` (app.py lines 271-369): 400 on missing location parameters;
when a city is given without complete coordinates, resolve it via
`get_coordinates_from_city` and answer 404 if either returned coordinate is
falsy; otherwise call the One Call collaborator once. -/
def get_forecast (geo : GeoApi) (onecall : OneCallApi) (apiKey : String)
    (city lat lon : Option String) : HandlerResult :=
  if missing_location city lat lon then ⟨400, 0, 0⟩
  else if (pyStr city).truthy && (!(pyStr lat).truthy || !(pyStr lon).truthy) then
    match get_coordinates_from_city geo apiKey (city.getD "") with
    | (la, lo, _info) =>
      if !la.truthy || !lo.truthy then ⟨404, 1, 0⟩
      else ⟨one_call_status (onecall la lo), 1, 1⟩
  else ⟨one_call_status (onecall (pyStr lat) (pyStr lon)), 0, 1⟩

/-- `get_hourly` (app.py lines 371-463): same control flow as `get_forecast`,
relabelling the hourly part of the One Call response. -/
def get_hourly (geo : GeoApi) (onecall : OneCallApi) (apiKey : String)
    (city lat lon : Option String) : HandlerResult :=
  if missing_location city lat lon then ⟨400, 0, 0⟩
  else if (pyStr city).truthy && (!(pyStr lat).truthy || !(pyStr lon).truthy) then
    match get_coordinates_from_city geo apiKey (city.getD "") with
    | (la, lo, _info) =>
      if !la.truthy || !lo.truthy then ⟨404, 1, 0⟩
      else ⟨one_call_status (onecall la lo), 1, 1⟩
  else ⟨one_call_status (onecall (pyStr lat) (pyStr lon)), 0, 1⟩

/-- `get_minute_forecast` (app.py lines 465-549): same control flow as
`get_forecast`, relabelling the minutely part of the One Call response. -/
def get_minute_forecast (geo : GeoApi) (onecall : OneCallApi) (apiKey : String)
    (city lat lon : Option String) : HandlerResult :=
  if missing_location city lat lon then ⟨400, 0, 0⟩
  else if (pyStr city).truthy && (!(pyStr lat).truthy || !(pyStr lon).truthy) then
    match get_coordinates_from_city geo apiKey (city.getD "") with
    | (la, lo, _info) =>
      if !la.truthy || !lo.truthy then ⟨404, 1, 0⟩
      else ⟨one_call_status (onecall la lo), 1, 1⟩
  else ⟨one_call_status (onecall (pyStr lat) (pyStr lon)), 0, 1⟩

/-- `get_alerts` (app.py lines 551-641): same control flow as `get_forecast`,
relabelling the alerts part of the One Call response. -/
def get_alerts (geo : GeoApi) (onecall : OneCallApi) (apiKey : String)
    (city lat lon : Option String) : HandlerResult :=
  if missing_location city lat lon then ⟨400, 0, 0⟩
  else if (pyStr city).truthy && (!(pyStr lat).truthy || !(pyStr lon).truthy) then
    match get_coordinates_from_city geo apiKey (city.getD "") with
    | (la, lo, _info) =>
      if !la.truthy || !lo.truthy then ⟨404, 1, 0⟩
      else ⟨one_call_status (onecall la lo), 1, 1⟩
  else ⟨one_call_status (onecall (pyStr lat) (pyStr lon)), 0, 1⟩

/-! ## The specification's resolver, modelled from its own words

The spec (§4.1) describes a scoring resolver that the source does not
contain; the following `spec_*` definitions transcribe the spec's words so
that claims about that algorithm can be compared with the code's behaviour. -/

/-- `charsPfx a b`: the character list `a` occurs at the start of `b`. -/
def charsPfx : List Char → List Char → Bool
  | [], _ => true
  | _ :: _, [] => false
  | a :: as, b :: bs => a == b && charsPfx as bs

/-- `charsSub needle hay`: `needle` occurs contiguously inside `hay`. -/
def charsSub (needle hay : List Char) : Bool :=
  match hay with
  | [] => needle.isEmpty
  | _ :: t => charsPfx needle hay || charsSub needle t

/-- Python's `needle in hay` on strings. -/
def pyIn (needle hay : String) : Bool :=
  charsSub needle.data hay.data

/-- Split a character list at commas (structural version of `str.split(',')`). -/
def splitCommas : List Char → List Char → List (List Char)
  | [], cur => [cur.reverse]
  | c :: rest, cur =>
    if c == ',' then cur.reverse :: splitCommas rest []
    else splitCommas rest (c :: cur)

/-- Strip leading and trailing whitespace (structural version of `str.strip()`). -/
def trimChars (l : List Char) : List Char :=
  ((l.dropWhile Char.isWhitespace).reverse.dropWhile Char.isWhitespace).reverse

/-- Lowercase a string character by character (structural version of
`str.lower()`). -/
def lowerStr (s : String) : String :=
  ⟨s.data.map Char.toLower⟩

/-- Modelled from the spec: `LocationQuery` — lowercase trimmed
comma-separated tokens: primary city, optional state, optional country. -/
structure SpecQuery where
  primary : String
  state : Option String
  country : Option String
deriving DecidableEq, Repr

/-- Modelled from the spec: parse the raw query by splitting on commas,
trimming and lowercasing each segment. -/
def spec_parse (raw : String) : SpecQuery :=
  let parts := (splitCommas raw.data []).map (fun cs => lowerStr ⟨trimChars cs⟩)
  { primary := parts.headD "", state := parts.get? 1, country := parts.get? 2 }

/-- Modelled from the spec: case-insensitive substring match in either
direction. -/
def spec_bimatch (a b : String) : Bool :=
  pyIn (lowerStr a) (lowerStr b) || pyIn (lowerStr b) (lowerStr a)

/-- Modelled from the spec: score one candidate, `Option.none` meaning the
candidate is excluded because its lowercase name differs from the primary
token; otherwise start at 1 and add 2 / subtract 1 per present hint. -/
def spec_score (q : SpecQuery) (c : GeoRecord) : Option Int :=
  if lowerStr (c.name.getD "") ≠ q.primary then Option.none
  else
    let afterName : Int := 1
    let afterState : Int :=
      match q.state with
      | some st =>
        if (c.state.getD "") ≠ "" then
          (if spec_bimatch st (c.state.getD "") then afterName + 2 else afterName - 1)
        else afterName
      | Option.none => afterName
    let afterCountry : Int :=
      match q.country with
      | some co =>
        if (c.country.getD "") ≠ "" then
          (if spec_bimatch co (c.country.getD "") then afterState + 2 else afterState - 1)
        else afterState
      | Option.none => afterState
    some afterCountry

/-- Modelled from the spec: left-to-right maximum tracking with strict
comparison, so the first-seen candidate wins ties. -/
def spec_bestAux (q : SpecQuery) (acc : Option (GeoRecord × Int)) :
    List GeoRecord → Option (GeoRecord × Int)
  | [] => acc
  | c :: rest =>
    let acc2 :=
      match spec_score q c, acc with
      | Option.none, a => a
      | some s, Option.none => some (c, s)
      | some s, some (b, bs) => if s > bs then some (c, s) else some (b, bs)
    spec_bestAux q acc2 rest

/-- Modelled from the spec: the maximum-scoring candidate, if any scored. -/
def spec_best (q : SpecQuery) (cs : List GeoRecord) : Option GeoRecord :=
  (spec_bestAux q Option.none cs).map Prod.fst

/-- Modelled from the spec: fallback query = text before the first comma,
trimmed. -/
def spec_fallback (raw : String) : String :=
  ⟨trimChars ((splitCommas raw.data []).headD [])⟩

/-! ## Concrete fixtures used by the counterexamples and witnesses -/

def springfieldIL : GeoRecord :=
  ⟨some "Springfield", some "Illinois", some "US", some 39, some (-89), Option.none⟩

def springfieldMO : GeoRecord :=
  ⟨some "Springfield", some "Missouri", some "US", some 37, some (-93), Option.none⟩

def springfieldVIC : GeoRecord :=
  ⟨some "Springfield", some "Victoria", some "Australia", some (-37), some 144, Option.none⟩

/-- Upstream dataset for the Springfield scenario, the Missouri entry listed
first. -/
def geoSpringfield : GeoApi := fun p =>
  if p.q = "Springfield, Illinois, United States" then
    some [springfieldMO, springfieldIL, springfieldVIC]
  else some []

/-- A second dataset that agrees with `geoSpringfield` on the Springfield
query but differs elsewhere. -/
def geoSpringfieldAlt : GeoApi := fun p =>
  if p.q = "Springfield, Illinois, United States" then
    some [springfieldMO, springfieldIL, springfieldVIC]
  else Option.none

/-- Upstream dataset that knows "Springfield" but not
"Springfield, Illinois". -/
def geoOnlyShort : GeoApi := fun p =>
  if p.q = "Springfield" then some [springfieldIL] else some []

/-- A collaborator that raises on every request (transport failure). -/
def geoDown : GeoApi := fun _ => Option.none

/-- A collaborator that returns zero candidates for every request. -/
def geoEmpty : GeoApi := fun _ => some []

/-- A record with every field absent. -/
def emptyRecord : GeoRecord :=
  ⟨Option.none, Option.none, Option.none, Option.none, Option.none, Option.none⟩

/-- A collaborator whose sole candidate has every field absent. -/
def geoEmptyRecord : GeoApi := fun _ => some [emptyRecord]

/-- A London candidate carrying a timezone, which the code never reads. -/
def londonTZ : GeoRecord :=
  ⟨some "London", some "England", some "GB", some 51, some (-1), some "Europe/London"⟩

def londonCA : GeoRecord :=
  ⟨some "London", some "Ontario", some "CA", some 42, some (-81), Option.none⟩

/-- Upstream dataset with a single London candidate. -/
def geoLondon : GeoApi := fun p =>
  if p.q = "London" then some [londonTZ] else some []

/-- Upstream dataset with two same-named London candidates. -/
def geoLondonPair : GeoApi := fun p =>
  if p.q = "London" then some [londonTZ, londonCA] else some []

/-- A One Call collaborator that succeeds on every request. -/
def onecallOk : OneCallApi := fun _ _ => Except.ok ()

/-- A current-weather collaborator that succeeds on every request. -/
def weatherOk : WeatherApi := fun _ => Except.ok ()

/-! ## Claims -/

/-- C1 counterexample: for the query "Springfield, Illinois, United States"
with the Missouri candidate listed first upstream, the maximum-scoring
candidate under the spec's scoring scheme is the Illinois one, yet the
resolver returns the Missouri candidate's data (it performs no scoring and
takes the first entry), and the two candidates' data differ. -/
theorem c1_no_scoring_counterexample :
    spec_best (spec_parse "Springfield, Illinois, United States")
        [springfieldMO, springfieldIL, springfieldVIC] = some springfieldIL ∧
    get_coordinates_from_city geoSpringfield "key"
        "Springfield, Illinois, United States"
      = (PyVal.int 37, PyVal.int (-93), some (city_info springfieldMO)) ∧
    city_info springfieldMO ≠ city_info springfieldIL := by
  refine ⟨by decide, rfl, by decide⟩

/-- C1 amended: the resolver performs no scoring at all; whenever the
geocoding response list is non-empty it returns the first candidate's
latitude, longitude and info dict, regardless of the query's state and
country tokens. -/
theorem c1_first_entry_wins (geo : GeoApi) (apiKey q : String)
    (r : GeoRecord) (rest : List GeoRecord)
    (h : geo (geocoding_params apiKey q) = some (r :: rest)) :
    get_coordinates_from_city geo apiKey q
      = (pyOf r.lat, pyOf r.lon, some (city_info r)) := by
  unfold get_coordinates_from_city
  rw [h]

/-- C1 amended, instantiated at the Springfield query. -/
theorem c1_first_entry_wins_witness :
    get_coordinates_from_city geoSpringfield "key"
        "Springfield, Illinois, United States"
      = (pyOf springfieldMO.lat, pyOf springfieldMO.lon,
         some (city_info springfieldMO)) :=
  c1_first_entry_wins geoSpringfield "key"
    "Springfield, Illinois, United States"
    springfieldMO [springfieldIL, springfieldVIC] rfl

/-- C2 counterexample: for "Springfield, Illinois" the upstream has no
candidates for the full string but does have one for the fallback
"Springfield", and the fallback differs from the original query; the spec
therefore demands a successful retry, yet the resolver returns the
not-found triple — it never issues a second lookup. -/
theorem c2_no_retry_counterexample :
    spec_fallback "Springfield, Illinois" ≠ "Springfield, Illinois" ∧
    geoOnlyShort (geocoding_params "key" (spec_fallback "Springfield, Illinois"))
      = some [springfieldIL] ∧
    get_coordinates_from_city geoOnlyShort "key" "Springfield, Illinois"
      = (PyVal.none, PyVal.none, Option.none) := by
  refine ⟨by decide, by decide, rfl⟩

/-- C2 amended: the resolver issues exactly one lookup, on the raw query;
if that lookup yields zero candidates, resolution fails immediately with
the not-found triple — no fallback query is derived and no retry occurs. -/
theorem c2_single_lookup (geo : GeoApi) (apiKey q : String)
    (h : geo (geocoding_params apiKey q) = some []) :
    get_coordinates_from_city geo apiKey q
      = (PyVal.none, PyVal.none, Option.none) := by
  unfold get_coordinates_from_city
  rw [h]

/-- C2 amended, instantiated at "Springfield, Illinois" against the dataset
that only knows "Springfield". -/
theorem c2_single_lookup_witness :
    get_coordinates_from_city geoOnlyShort "key" "Springfield, Illinois"
      = (PyVal.none, PyVal.none, Option.none) :=
  c2_single_lookup geoOnlyShort "key" "Springfield, Illinois" rfl

/-- C3 counterexample: when the geocoding collaborator fails (any raised
exception), the resolver returns exactly the same triple as when the
collaborator returns zero candidates — the two outcomes are
indistinguishable — and the forecast endpoint answers 404, not a
server-side 5xx. -/
theorem c3_error_conflated_counterexample :
    get_coordinates_from_city geoDown "key" "London"
      = (PyVal.none, PyVal.none, Option.none) ∧
    get_coordinates_from_city geoDown "key" "London"
      = get_coordinates_from_city geoEmpty "key" "London" ∧
    (get_forecast geoDown onecallOk "key" (some "London")
        Option.none Option.none).status = 404 := by
  refine ⟨rfl, rfl, rfl⟩

/-- C3 amended: an upstream geocoding failure is swallowed by the resolver,
which returns the same `(None, None, None)` as for "no candidates", and the
calling layer reports it as a client-facing 404, never as a 5xx. -/
theorem c3_upstream_failure_is_404 (geo : GeoApi) (onecall : OneCallApi)
    (apiKey q : String) (hq : q ≠ "")
    (h : geo (geocoding_params apiKey q) = Option.none) :
    get_coordinates_from_city geo apiKey q
      = (PyVal.none, PyVal.none, Option.none) ∧
    (get_forecast geo onecall apiKey (some q) Option.none Option.none).status
      = 404 := by
  have hres : get_coordinates_from_city geo apiKey q
      = (PyVal.none, PyVal.none, Option.none) := by
    unfold get_coordinates_from_city
    rw [h]
  refine ⟨hres, ?_⟩
  unfold get_forecast
  simp [missing_location, pyStr, PyVal.truthy, hq, hres]

/-- C3 amended, instantiated at "London" against a collaborator that raises
on every request. -/
theorem c3_upstream_failure_is_404_witness :
    get_coordinates_from_city geoDown "key" "London"
      = (PyVal.none, PyVal.none, Option.none) ∧
    (get_forecast geoDown onecallOk "key" (some "London")
        Option.none Option.none).status = 404 :=
  c3_upstream_failure_is_404 geoDown onecallOk "key" "London" (by decide) rfl

/-- C4: whenever the geocoding collaborator returns a non-empty candidate
list, resolution succeeds with the first candidate in upstream order — which
covers both of the claim's cases (name-mismatching candidates and tied
same-named candidates), since the code always takes the head of the list. -/
theorem c4_nonempty_resolves_to_head (geo : GeoApi) (apiKey q : String)
    (l : List GeoRecord) (h : geo (geocoding_params apiKey q) = some l)
    (hne : l ≠ []) :
    ∃ r rest, l = r :: rest ∧
      get_coordinates_from_city geo apiKey q
        = (pyOf r.lat, pyOf r.lon, some (city_info r)) := by
  match l, hne with
  | r :: rest, _ =>
    refine ⟨r, rest, rfl, ?_⟩
    unfold get_coordinates_from_city
    rw [h]

/-- C4, instantiated at the "London" query with two same-named candidates
and no state/country hints: the first candidate wins. -/
theorem c4_nonempty_resolves_to_head_witness :
    ∃ r rest, [londonTZ, londonCA] = r :: rest ∧
      get_coordinates_from_city geoLondonPair "key" "London"
        = (pyOf r.lat, pyOf r.lon, some (city_info r)) :=
  c4_nonempty_resolves_to_head geoLondonPair "key" "London"
    [londonTZ, londonCA] rfl (by decide)

/-- C5 counterexample: the geocoding request the resolver builds carries
`limit = 1`, not 10. -/
theorem c5_limit_counterexample :
    (geocoding_params "key" "Springfield, Illinois, United States").limit = 1 ∧
    (geocoding_params "key" "Springfield, Illinois, United States").limit ≠ 10 := by
  refine ⟨rfl, by decide⟩

/-- C5 amended: every geocoding lookup issued by the resolver requests at
most one candidate (`limit = 1`). -/
theorem c5_limit_is_one (apiKey city_name : String) :
    (geocoding_params apiKey city_name).limit = 1 := rfl

/-- C6 counterexample: the sole upstream candidate carries a timezone, but
the resolver's output dict has no "timezone" key at all, so the resolved
location does not carry the candidate's timezone. -/
theorem c6_timezone_counterexample :
    londonTZ.timezone = some "Europe/London" ∧
    (get_coordinates_from_city geoLondon "key" "London").2.2
      = some (city_info londonTZ) ∧
    (city_info londonTZ).lookup "timezone" = Option.none := by
  refine ⟨rfl, rfl, rfl⟩

/-- C6 amended: a successful resolution carries exactly the first
candidate's name, state, country, latitude and longitude, unmodified except
that absent string fields default to `""`; no timezone field is returned;
and the result is independent of every other candidate in the list (no
merging); the resolver is a pure function of the response, so candidates
are never mutated. -/
theorem c6_single_candidate_data (geo geo2 : GeoApi) (apiKey q : String)
    (r : GeoRecord) (rest rest2 : List GeoRecord)
    (h : geo (geocoding_params apiKey q) = some (r :: rest))
    (h2 : geo2 (geocoding_params apiKey q) = some (r :: rest2)) :
    get_coordinates_from_city geo apiKey q
      = (pyOf r.lat, pyOf r.lon,
         some [("name", r.name.getD ""), ("state", r.state.getD ""),
               ("country", r.country.getD "")]) ∧
    (city_info r).lookup "timezone" = Option.none ∧
    get_coordinates_from_city geo apiKey q
      = get_coordinates_from_city geo2 apiKey q := by
  have e1 : get_coordinates_from_city geo apiKey q
      = (pyOf r.lat, pyOf r.lon, some (city_info r)) := by
    unfold get_coordinates_from_city
    rw [h]
  have e2 : get_coordinates_from_city geo2 apiKey q
      = (pyOf r.lat, pyOf r.lon, some (city_info r)) := by
    unfold get_coordinates_from_city
    rw [h2]
  exact ⟨e1, rfl, e1.trans e2.symm⟩

/-- C6 amended, instantiated at "London": the result carries the single
candidate's fields, no timezone, and ignores a differing tail. -/
theorem c6_single_candidate_data_witness :
    get_coordinates_from_city geoLondon "key" "London"
      = (pyOf londonTZ.lat, pyOf londonTZ.lon,
         some [("name", londonTZ.name.getD ""), ("state", londonTZ.state.getD ""),
               ("country", londonTZ.country.getD "")]) ∧
    (city_info londonTZ).lookup "timezone" = Option.none ∧
    get_coordinates_from_city geoLondon "key" "London"
      = get_coordinates_from_city geoLondonPair "key" "London" :=
  c6_single_candidate_data geoLondon geoLondonPair "key" "London"
    londonTZ [] [londonCA] rfl rfl

/-- C7: if the geocoding collaborator yields zero candidates for every
request (so in particular for the full-string lookup and for any fallback
lookup), resolution yields the not-found triple, the forecast endpoint
answers 404, and no One Call request is issued — the embedding is a total
function, so no exception escapes and no partial result exists. -/
theorem c7_notfound_404 (geo : GeoApi) (onecall : OneCallApi)
    (apiKey q : String) (hq : q ≠ "") (h : ∀ p, geo p = some []) :
    get_coordinates_from_city geo apiKey q
      = (PyVal.none, PyVal.none, Option.none) ∧
    (get_forecast geo onecall apiKey (some q) Option.none Option.none).status
      = 404 ∧
    (get_forecast geo onecall apiKey (some q) Option.none Option.none).apiCalls
      = 0 := by
  have hres : get_coordinates_from_city geo apiKey q
      = (PyVal.none, PyVal.none, Option.none) := by
    unfold get_coordinates_from_city
    rw [h]
  refine ⟨hres, ?_, ?_⟩ <;>
  · unfold get_forecast
    simp [missing_location, pyStr, PyVal.truthy, hq, hres]

/-- C7, instantiated at the query "Atlantis" against an always-empty
dataset. -/
theorem c7_notfound_404_witness :
    get_coordinates_from_city geoEmpty "key" "Atlantis"
      = (PyVal.none, PyVal.none, Option.none) ∧
    (get_forecast geoEmpty onecallOk "key" (some "Atlantis")
        Option.none Option.none).status = 404 ∧
    (get_forecast geoEmpty onecallOk "key" (some "Atlantis")
        Option.none Option.none).apiCalls = 0 :=
  c7_notfound_404 geoEmpty onecallOk "key" "Atlantis" (by decide)
    (fun _ => rfl)

/-- C8: resolution is deterministic — the result depends only on the
upstream response to the single request the resolver issues, so two runs
against unchanged upstream responses return the same value. -/
theorem c8_deterministic (geo1 geo2 : GeoApi) (apiKey q : String)
    (h : geo1 (geocoding_params apiKey q) = geo2 (geocoding_params apiKey q)) :
    get_coordinates_from_city geo1 apiKey q
      = get_coordinates_from_city geo2 apiKey q := by
  unfold get_coordinates_from_city
  rw [h]

/-- C8, instantiated at the Springfield query against two datasets that
agree on that query. -/
theorem c8_deterministic_witness :
    get_coordinates_from_city geoSpringfield "key"
        "Springfield, Illinois, United States"
      = get_coordinates_from_city geoSpringfieldAlt "key"
        "Springfield, Illinois, United States" :=
  c8_deterministic geoSpringfield geoSpringfieldAlt "key"
    "Springfield, Illinois, United States" rfl

/-- C9: `get_coordinates_from_city` is total over upstream behaviour — any
raised exception (modelled as an absent response) yields `(None, None,
None)` rather than propagating, and on success the returned `city_info`
fields default to the empty string when absent from the upstream record. -/
theorem c9_total_with_defaults (geo : GeoApi) (apiKey q : String) :
    (geo (geocoding_params apiKey q) = Option.none →
      get_coordinates_from_city geo apiKey q
        = (PyVal.none, PyVal.none, Option.none)) ∧
    (∀ r rest, geo (geocoding_params apiKey q) = some (r :: rest) →
      (get_coordinates_from_city geo apiKey q).2.2
        = some [("name", r.name.getD ""), ("state", r.state.getD ""),
                ("country", r.country.getD "")]) := by
  constructor
  · intro h
    unfold get_coordinates_from_city
    rw [h]
  · intro r rest h
    unfold get_coordinates_from_city
    rw [h]
    rfl

/-- C9, instantiated at a raising collaborator and at a record with every
field absent: no exception escapes and the string fields default to `""`. -/
theorem c9_total_with_defaults_witness :
    get_coordinates_from_city geoDown "key" "Paris"
      = (PyVal.none, PyVal.none, Option.none) ∧
    (get_coordinates_from_city geoEmptyRecord "key" "Nowhere").2.2
      = some [("name", ""), ("state", ""), ("country", "")] :=
  ⟨(c9_total_with_defaults geoDown "key" "Paris").1 rfl,
   (c9_total_with_defaults geoEmptyRecord "key" "Nowhere").2
     emptyRecord [] rfl⟩

/-- C10: every location-taking endpoint — get-weather, get-forecast,
get-hourly, get-minute-forecast, get-alerts — answers 400 and issues no
upstream request at all when the query supplies neither a city parameter
nor both lat and lon. -/
theorem c10_validation_no_upstream (geo : GeoApi) (onecall : OneCallApi)
    (wapi : WeatherApi) (apiKey : String) (city lat lon : Option String)
    (h : missing_location city lat lon = true) :
    get_weather wapi apiKey city lat lon = ⟨400, 0, 0⟩ ∧
    get_forecast geo onecall apiKey city lat lon = ⟨400, 0, 0⟩ ∧
    get_hourly geo onecall apiKey city lat lon = ⟨400, 0, 0⟩ ∧
    get_minute_forecast geo onecall apiKey city lat lon = ⟨400, 0, 0⟩ ∧
    get_alerts geo onecall apiKey city lat lon = ⟨400, 0, 0⟩ := by
  refine ⟨?_, ?_, ?_, ?_, ?_⟩ <;>
    simp [get_weather, get_forecast, get_hourly, get_minute_forecast,
      get_alerts, h]

/-- C10, instantiated at a request with no city and only a longitude. -/
theorem c10_validation_no_upstream_witness :
    get_weather weatherOk "key" Option.none Option.none (some "-0.1278")
        = ⟨400, 0, 0⟩ ∧
    get_forecast geoEmpty onecallOk "key" Option.none Option.none
        (some "-0.1278") = ⟨400, 0, 0⟩ ∧
    get_hourly geoEmpty onecallOk "key" Option.none Option.none
        (some "-0.1278") = ⟨400, 0, 0⟩ ∧
    get_minute_forecast geoEmpty onecallOk "key" Option.none Option.none
        (some "-0.1278") = ⟨400, 0, 0⟩ ∧
    get_alerts geoEmpty onecallOk "key" Option.none Option.none
        (some "-0.1278") = ⟨400, 0, 0⟩ :=
  c10_validation_no_upstream geoEmpty onecallOk weatherOk "key"
    Option.none Option.none (some "-0.1278") rfl
